import Mathlib

/-!
Verification of the turnover-analysis engine and frequency controller of the
Giftcard deal bot, as a shallow embedding of `src/database_monitor.py`
(`DatabaseDealMonitor._calculate_turnover_stats`) and `src/adaptive_scraper.py`
(`AdaptiveScraper.adjust_frequency`, `set_frequency_bounds`, `_log_adjustment`).

Modelling conventions:
* Python ints are `ℤ` (snapshot sequence numbers, always natural, are `ℕ`);
  Python floats arising from true division are `ℚ`.
* A Python dict that may lack a key is modelled with `Option` fields; reading
  `d.get(key, default)` is `field.getD default`.
* `list.sort()` on `ℕ` keys is `List.insertionSort (· ≤ ·)` (any correct sort
  of a list over a linear order yields the same list).
* The wall-clock timestamp taken by `datetime.now()` is passed in as an
  abstract `now : ℕ`.
-/

/-- The statistics dict returned by `DatabaseDealMonitor._calculate_turnover_stats`.
When no deals were seen the Python code returns a dict holding only the key
`total_deals_seen`; the other three keys are therefore `Option` fields. -/
structure SourceStats where
  total_deals_seen : ℕ
  disappeared_deals : Option ℕ
  turnover_rate : Option ℚ
  avg_lifetime_minutes : Option ℚ
deriving Repr, DecidableEq

/-- The dict returned for an empty timeline: it carries only the key
`total_deals_seen` (with value 0) and lacks the other three keys. -/
def emptySourceStats : SourceStats :=
  { total_deals_seen := 0, disappeared_deals := none, turnover_rate := none,
    avg_lifetime_minutes := none }

/-- The per-deal step of the loop body of `_calculate_turnover_stats`
(`src/database_monitor.py` lines 224-244): sort the appearance check numbers,
skip the deal when it has fewer than two observations, otherwise report its
lifespan in minutes `(last_seen - first_seen + 1) * interval_minutes` and
whether it disappeared (`last_seen < num_snapshots`). -/
def dealContribution (num_snapshots : ℕ) (interval_minutes : ℚ)
    (appearances : List ℕ) : Option (ℚ × Bool) :=
  let sorted := List.insertionSort (· ≤ ·) appearances
  if sorted.length < 2 then none
  else
    let first_seen := sorted.headD 0
    let last_seen := sorted.getLastD 0
    let lifespan_checks : ℚ := (last_seen : ℚ) - (first_seen : ℚ) + 1
    some (lifespan_checks * interval_minutes, decide (last_seen < num_snapshots))

/-- Embedding of `DatabaseDealMonitor._calculate_turnover_stats`
(`src/database_monitor.py` lines 213-266).  The deal timeline (a dict from deal hash to the list of check
numbers at which the deal was observed) is modelled as an association list. -/
def calculate_turnover_stats (deal_timeline : List (String × List ℕ))
    (num_snapshots : ℕ) (interval_minutes : ℚ) : SourceStats :=
  let total_deals := deal_timeline.length
  if total_deals = 0 then emptySourceStats
  else
    let contribs := deal_timeline.filterMap
      (fun p => dealContribution num_snapshots interval_minutes p.2)
    let deal_lifespans := contribs.map Prod.fst
    let disappeared_deals := (contribs.filter Prod.snd).length
    let avg_lifetime_minutes : ℚ :=
      if deal_lifespans.length ≠ 0 then
        deal_lifespans.sum / (deal_lifespans.length : ℚ)
      else 0
    let turnover_rate : ℚ :=
      if 0 < total_deals then (disappeared_deals : ℚ) / (total_deals : ℚ) else 0
    { total_deals_seen := total_deals, disappeared_deals := some disappeared_deals,
      turnover_rate := some turnover_rate, avg_lifetime_minutes := some avg_lifetime_minutes }

/-- One entry of the persisted adjustments list, as built by
`AdaptiveScraper._log_adjustment` (`src/adaptive_scraper.py` lines 178-195). -/
structure AdjustmentRecord where
  timestamp : ℕ
  old_frequency : ℤ
  new_frequency : ℤ
  reason : String
  confidence : String
  gcx_turnover : ℚ
  cardcash_turnover : ℚ
  avg_lifetime_minutes : ℚ
  scrape_count : ℕ
deriving Repr, DecidableEq

/-- The `turnover_data` dict consumed by `AdaptiveScraper.adjust_frequency`:
per-source statistics for the two platforms. -/
structure TurnoverData where
  gcx_stats : SourceStats
  cardcash_stats : SourceStats
deriving Repr, DecidableEq

/-- The mutable state of an `AdaptiveScraper` relevant to frequency control:
the current interval, its bounds, the poll counters and the persisted
adjustment history (records plus summary counters). -/
structure ScraperState where
  current_frequency : ℤ
  min_frequency : ℤ
  max_frequency : ℤ
  adjustment_threshold : ℕ
  scrape_count : ℕ
  adjustments : List AdjustmentRecord
  total_adjustments : ℕ
  increases : ℕ
  decreases : ℕ
  last_adjustment_time : Option ℕ
deriving Repr, DecidableEq

/-- Embedding of `AdaptiveScraper.__init__` with a fresh (empty) adjustment
history (`src/adaptive_scraper.py` lines 38-51 and 60-68). -/
def initState (initial_frequency_minutes : ℤ) : ScraperState :=
  { current_frequency := initial_frequency_minutes
    min_frequency := 10
    max_frequency := 240
    adjustment_threshold := 5
    scrape_count := 0
    adjustments := []
    total_adjustments := 0
    increases := 0
    decreases := 0
    last_adjustment_time := none }

/-- Embedding of `AdaptiveScraper.set_frequency_bounds`
(`src/adaptive_scraper.py` lines 90-94): it sets
`min_frequency = max(5, min_minutes)` and
`max_frequency = min(360, max_minutes)`. -/
def set_frequency_bounds (s : ScraperState) (min_minutes max_minutes : ℤ) :
    ScraperState :=
  { s with min_frequency := max 5 min_minutes, max_frequency := min 360 max_minutes }

/-- Embedding of `AdaptiveScraper._log_adjustment` (`src/adaptive_scraper.py`
lines 178-206): append an `AdjustmentRecord` and update the summary counters.  Note the counter
update direction: `new_freq < old_freq` increments `increases`, otherwise
`decreases` is incremented. -/
def log_adjustment (s : ScraperState) (old_freq new_freq : ℤ)
    (reason confidence : String) (metrics : TurnoverData) (now : ℕ) : ScraperState :=
  let adjustment : AdjustmentRecord :=
    { timestamp := now
      old_frequency := old_freq
      new_frequency := new_freq
      reason := reason
      confidence := confidence
      gcx_turnover := metrics.gcx_stats.turnover_rate.getD 0
      cardcash_turnover := metrics.cardcash_stats.turnover_rate.getD 0
      avg_lifetime_minutes :=
        (metrics.gcx_stats.avg_lifetime_minutes.getD 0 +
          metrics.cardcash_stats.avg_lifetime_minutes.getD 0) / 2
      scrape_count := s.scrape_count }
  { s with
    adjustments := s.adjustments ++ [adjustment]
    total_adjustments := s.total_adjustments + 1
    increases := if new_freq < old_freq then s.increases + 1 else s.increases
    decreases := if new_freq < old_freq then s.decreases else s.decreases + 1 }

/-- The local `avg_turnover` as computed at `src/adaptive_scraper.py`
lines 126-128:
the mean of the two sources' turnover rates, each read with default 0. -/
def avgTurnover (d : TurnoverData) : ℚ :=
  (d.gcx_stats.turnover_rate.getD 0 + d.cardcash_stats.turnover_rate.getD 0) / 2

/-- The local `avg_lifetime` as computed at `src/adaptive_scraper.py`
lines 130-132:
the mean of the two sources' average lifetimes, each read with default 120. -/
def avgLifetime (d : TurnoverData) : ℚ :=
  (d.gcx_stats.avg_lifetime_minutes.getD 120 +
    d.cardcash_stats.avg_lifetime_minutes.getD 120) / 2

/-- The ordered rule cascade of `adjust_frequency` (`src/adaptive_scraper.py`
lines 139-161): given the state and the averaged metrics, the pre-clamp target
interval together with the reason and confidence strings. -/
def computeTarget (s : ScraperState) (avg_turnover avg_lifetime : ℚ) :
    ℤ × String × String :=
  if avg_turnover > 50 then
    (max s.min_frequency (min 15 (s.current_frequency - 15)),
      "very high turnover rate", "high")
  else if avg_turnover > 30 then
    (max s.min_frequency (min 30 (s.current_frequency - 10)),
      "high turnover rate", "high")
  else if avg_turnover < 5 ∧ avg_lifetime > 180 then
    (min s.max_frequency (max 120 (s.current_frequency + 20)),
      "very low turnover and long deal lifetime", "high")
  else if avg_turnover < 10 then
    (min s.max_frequency (s.current_frequency + 10), "low turnover rate", "medium")
  else if avg_lifetime < 30 then
    (max s.min_frequency (s.current_frequency - 10), "very short deal lifetime", "high")
  else
    (s.current_frequency, "metrics within normal range", "low")

/-- Embedding of `AdaptiveScraper.adjust_frequency` (`src/adaptive_scraper.py`
lines 96-176) on the path where `turnover_data` is supplied by the caller.  Returns the new
state together with `some (reason, confidence)` when the adjustment logic ran,
or `none` when the call was skipped for lack of data points.  In the Python
these two strings are locals; returning them makes the chosen rule observable,
as the log line does. -/
def adjust_frequency (s : ScraperState) (turnover_data : TurnoverData) (now : ℕ) :
    ScraperState × Option (String × String) :=
  if s.scrape_count < s.adjustment_threshold then (s, none)
  else
    let old_frequency := s.current_frequency
    let t := computeTarget s (avgTurnover turnover_data) (avgLifetime turnover_data)
    let new_frequency := max s.min_frequency (min s.max_frequency t.1)
    let s1 := { s with current_frequency := new_frequency }
    let s2 :=
      if old_frequency ≠ new_frequency then
        log_adjustment s1 old_frequency new_frequency t.2.1 t.2.2 turnover_data now
      else s1
    ({ s2 with last_adjustment_time := some now }, some (t.2.1, t.2.2))

/-- Specification-level description of an item's last observed sequence number:
the maximum over its (non-empty) appearance list, 0 for an empty list. -/
def lastObs (l : List ℕ) : ℕ := l.foldr max 0

/-- An eligible controller state: fresh state at initial interval 60 after the
five polls required by the default `adjustment_threshold`. -/
def exState : ScraperState := { initState 60 with scrape_count := 5 }

/-- Turnover data reporting a 60% turnover rate on both sources (rates carried
as percentages, as the spec's rule thresholds read them). -/
def hiData : TurnoverData :=
  ⟨⟨5, some 3, some 60, some 100⟩, ⟨5, some 3, some 60, some 100⟩⟩

/-- Turnover data reporting 3% turnover and a 200-minute average lifetime on
both sources: the spec's worked example for the very-low-turnover rule. -/
def lowData : TurnoverData :=
  ⟨⟨20, some 1, some 3, some 200⟩, ⟨20, some 1, some 3, some 200⟩⟩

/-- Turnover data whose per-source statistics are both the empty-stats dict,
as produced by `_calculate_turnover_stats` when no items were seen. -/
def emptyData : TurnoverData := ⟨emptySourceStats, emptySourceStats⟩

/-- A session timeline over 3 snapshots: item `a` observed only at snapshot 1
(then gone), item `b` observed at snapshots 1 and 2 (gone by snapshot 3). -/
def singleObsTimeline : List (String × List ℕ) := [("a", [1]), ("b", [1, 2])]

/-- A timeline with one item observed at snapshots 1 and 2. -/
def twoObsTimeline : List (String × List ℕ) := [("a", [1, 2])]

/-! ### Helper lemmas about sorting and the per-deal contribution -/

lemma foldr_max_perm {l₁ l₂ : List ℕ} (h : l₁.Perm l₂) :
    l₁.foldr max 0 = l₂.foldr max 0 := by
  induction h with
  | nil => rfl
  | cons a _ ih => simp [ih]
  | swap a b l => simp only [List.foldr_cons]; omega
  | trans _ _ ih₁ ih₂ => exact ih₁.trans ih₂

lemma le_lastObs_of_mem {x : ℕ} : ∀ {l : List ℕ}, x ∈ l → x ≤ lastObs l
  | a :: t, hx => by
    rcases List.mem_cons.1 hx with rfl | hx
    · exact le_max_left _ _
    · exact le_trans (le_lastObs_of_mem hx) (le_max_right _ _)

lemma lastObs_mem : ∀ {l : List ℕ}, l ≠ [] → lastObs l ∈ l
  | [a], _ => by simp [lastObs]
  | a :: b :: t, _ => by
    have ih := lastObs_mem (l := b :: t) (by simp)
    show max a (lastObs (b :: t)) ∈ a :: b :: t
    rcases max_cases a (lastObs (b :: t)) with ⟨h, _⟩ | ⟨h, _⟩
    · rw [h]; exact List.mem_cons_self a _
    · rw [h]; exact List.mem_cons_of_mem a ih

lemma getLastD_sorted : ∀ {s : List ℕ}, List.Sorted (· ≤ ·) s → s.getLastD 0 = lastObs s
  | [], _ => rfl
  | [a], _ => by simp [lastObs]
  | a :: b :: t, h => by
    have ih := getLastD_sorted h.of_cons
    have hab : a ≤ b := List.rel_of_sorted_cons h b (by simp)
    have hb : b ≤ lastObs (b :: t) := le_max_left _ _
    have h1 : (a :: b :: t).getLastD 0 = (b :: t).getLastD 0 := by
      simp [List.getLastD_eq_getLast?, List.getLast?_cons_cons]
    have h2 : lastObs (a :: b :: t) = max a (lastObs (b :: t)) := rfl
    rw [h1, ih, h2, max_eq_right (le_trans hab hb)]

lemma sorted_headD_lt_getLastD : ∀ {s : List ℕ}, List.Sorted (· ≤ ·) s → s.Nodup →
    2 ≤ s.length → s.headD 0 + 1 ≤ s.getLastD 0
  | a :: b :: t, hs, hn, _ => by
    have h1 : (a :: b :: t).getLastD 0 = lastObs (a :: b :: t) := getLastD_sorted hs
    have hle : a ≤ lastObs (a :: b :: t) := le_lastObs_of_mem (by simp)
    have hne : a ≠ lastObs (a :: b :: t) := by
      intro hEq
      have hblt : b ≤ lastObs (b :: t) := le_max_left _ _
      have hab : a ≤ b := List.rel_of_sorted_cons hs b (by simp)
      have h2 : lastObs (a :: b :: t) = max a (lastObs (b :: t)) := rfl
      have h3 : lastObs (a :: b :: t) = lastObs (b :: t) := by
        rw [h2, max_eq_right (le_trans hab hblt)]
      have : a ∈ b :: t := by
        rw [hEq, h3]
        exact lastObs_mem (by simp)
      exact (List.nodup_cons.1 hn).1 this
    show a + 1 ≤ (a :: b :: t).getLastD 0
    rw [h1]
    omega

lemma getLastD_insertionSort (l : List ℕ) :
    (List.insertionSort (· ≤ ·) l).getLastD 0 = lastObs l := by
  rw [getLastD_sorted (List.sorted_insertionSort _ l)]
  exact foldr_max_perm (List.perm_insertionSort _ l)

lemma dealContribution_eq_none_iff (n : ℕ) (i : ℚ) (l : List ℕ) :
    dealContribution n i l = none ↔ l.length < 2 := by
  simp only [dealContribution]
  split
  · next h => simpa [List.length_insertionSort] using h
  · next h =>
    simp only [List.length_insertionSort] at h
    simp [h]

lemma dealContribution_eq_some (n : ℕ) (i : ℚ) (l : List ℕ) (hl : 2 ≤ l.length) :
    dealContribution n i l =
      some ((((List.insertionSort (· ≤ ·) l).getLastD 0 : ℚ)
          - ((List.insertionSort (· ≤ ·) l).headD 0 : ℚ) + 1) * i,
        decide (lastObs l < n)) := by
  simp only [dealContribution]
  rw [if_neg (by simp only [List.length_insertionSort]; omega), getLastD_insertionSort]

lemma filter_snd_filterMap_count (n : ℕ) (i : ℚ) :
    ∀ timeline : List (String × List ℕ),
      ((timeline.filterMap (fun p => dealContribution n i p.2)).filter Prod.snd).length
        = timeline.countP (fun p => decide (2 ≤ p.2.length ∧ lastObs p.2 < n))
  | [] => rfl
  | p :: rest => by
    have ih := filter_snd_filterMap_count n i rest
    rw [List.filterMap_cons, List.countP_cons]
    by_cases h2 : 2 ≤ p.2.length
    · rw [dealContribution_eq_some n i p.2 h2]
      by_cases hd : lastObs p.2 < n
      · simp [hd, h2, ih, List.filter_cons]
      · simp [hd, h2, ih, List.filter_cons]
    · rw [(dealContribution_eq_none_iff n i p.2).2 (by omega)]
      simp [h2, ih]

lemma avg_ge (l : List ℚ) (c : ℚ) (hne : l ≠ []) (h : ∀ x ∈ l, c ≤ x) :
    c ≤ l.sum / (l.length : ℚ) := by
  have hlen : 0 < (l.length : ℚ) := by
    have := List.length_pos.2 hne
    exact_mod_cast this
  rw [le_div_iff₀ hlen]
  calc c * (l.length : ℚ) = l.length • c := by rw [nsmul_eq_mul]; ring
    _ ≤ l.sum := List.card_nsmul_le_sum l c h

lemma calc_stats_rate (timeline : List (String × List ℕ)) (n : ℕ) (i : ℚ)
    (hne : timeline ≠ []) :
    ∃ d : ℕ, d ≤ timeline.length ∧
      (calculate_turnover_stats timeline n i).turnover_rate
        = some ((d : ℚ) / (timeline.length : ℚ)) := by
  refine ⟨((timeline.filterMap (fun p => dealContribution n i p.2)).filter Prod.snd).length,
    ?_, ?_⟩
  · exact le_trans (List.length_filter_le _ _) (List.length_filterMap_le _ _)
  · simp only [calculate_turnover_stats]
    rw [if_neg (by simpa using hne), if_pos (by simpa using List.length_pos.2 hne)]

lemma calc_stats_total (timeline : List (String × List ℕ)) (n : ℕ) (i : ℚ)
    (h : timeline ≠ []) :
    (calculate_turnover_stats timeline n i).total_deals_seen = timeline.length := by
  simp only [calculate_turnover_stats]
  rw [if_neg (by simpa using h)]

/-! ### Helper lemmas about the frequency controller -/

lemma computeTarget_very_high (s : ScraperState) {t l : ℚ} (h : t > 50) :
    computeTarget s t l =
      (max s.min_frequency (min 15 (s.current_frequency - 15)),
        "very high turnover rate", "high") := by
  unfold computeTarget
  rw [if_pos h]

lemma computeTarget_very_low_long (s : ScraperState) {t l : ℚ} (h5 : t < 5) (h180 : l > 180) :
    computeTarget s t l =
      (min s.max_frequency (max 120 (s.current_frequency + 20)),
        "very low turnover and long deal lifetime", "high") := by
  unfold computeTarget
  rw [if_neg (by simp only [gt_iff_lt, not_lt]; linarith),
    if_neg (by simp only [gt_iff_lt, not_lt]; linarith), if_pos ⟨h5, h180⟩]

lemma computeTarget_low_turnover (s : ScraperState) {t l : ℚ} (h10 : t < 10)
    (hnl : ¬(t < 5 ∧ l > 180)) :
    computeTarget s t l =
      (min s.max_frequency (s.current_frequency + 10), "low turnover rate", "medium") := by
  unfold computeTarget
  rw [if_neg (by simp only [gt_iff_lt, not_lt]; linarith),
    if_neg (by simp only [gt_iff_lt, not_lt]; linarith), if_neg hnl, if_pos h10]

lemma adjust_frequency_eligible (s : ScraperState) (d : TurnoverData) (now : ℕ)
    (h : s.adjustment_threshold ≤ s.scrape_count) :
    adjust_frequency s d now =
      (let t := computeTarget s (avgTurnover d) (avgLifetime d)
       let nf := max s.min_frequency (min s.max_frequency t.1)
       let s1 := { s with current_frequency := nf }
       let s2 :=
         if s.current_frequency ≠ nf then
           log_adjustment s1 s.current_frequency nf t.2.1 t.2.2 d now
         else s1
       ({ s2 with last_adjustment_time := some now }, some (t.2.1, t.2.2))) := by
  unfold adjust_frequency
  rw [if_neg (by omega)]

lemma current_frequency_log (s : ScraperState) (o nf : ℤ) (r c : String)
    (d : TurnoverData) (now : ℕ) :
    (log_adjustment s o nf r c d now).current_frequency = s.current_frequency := rfl

lemma length_adjustments_log (s : ScraperState) (o nf : ℤ) (r c : String)
    (d : TurnoverData) (now : ℕ) :
    (log_adjustment s o nf r c d now).adjustments.length = s.adjustments.length + 1 := by
  simp [log_adjustment]

/-! ### Claim theorems -/

/-- Claim C1: for every eligible call to `adjust_frequency` (poll threshold
reached) whose stats average turnover rate exceeds 50%, with the minimum bound
at most 15 and the current interval at least the minimum bound, the
"very high turnover" rule fires and the resulting interval is decreased to at
most 15 and at least the minimum bound. -/
theorem adjust_very_high_turnover_caps_interval (s : ScraperState) (d : TurnoverData)
    (now : ℕ) (hth : s.adjustment_threshold ≤ s.scrape_count)
    (ht : avgTurnover d > 50) (hm : s.min_frequency ≤ 15)
    (hc : s.min_frequency ≤ s.current_frequency) :
    (adjust_frequency s d now).2 = some ("very high turnover rate", "high") ∧
    (adjust_frequency s d now).1.current_frequency ≤ 15 ∧
    s.min_frequency ≤ (adjust_frequency s d now).1.current_frequency ∧
    (adjust_frequency s d now).1.current_frequency ≤ s.current_frequency := by
  rw [adjust_frequency_eligible s d now hth]
  simp only [computeTarget_very_high s ht, apply_ite ScraperState.current_frequency,
    current_frequency_log, ite_self]
  refine ⟨trivial, ?_, ?_, ?_⟩ <;> omega

/-- Witness for C1 at the spec's worked example: turnover rate 60% on both
sources, interval before 60, bounds [10, 240]; the result is exactly 15. -/
theorem adjust_very_high_turnover_caps_interval_witness :
    (exState.adjustment_threshold ≤ exState.scrape_count ∧ avgTurnover hiData > 50 ∧
      exState.min_frequency ≤ 15 ∧ exState.min_frequency ≤ exState.current_frequency) ∧
    ((adjust_frequency exState hiData 0).2 = some ("very high turnover rate", "high") ∧
      (adjust_frequency exState hiData 0).1.current_frequency ≤ 15 ∧
      exState.min_frequency ≤ (adjust_frequency exState hiData 0).1.current_frequency ∧
      (adjust_frequency exState hiData 0).1.current_frequency ≤ exState.current_frequency) ∧
    (adjust_frequency exState hiData 0).1.current_frequency = 15 :=
  ⟨⟨by decide, by norm_num [avgTurnover, hiData], by decide, by decide⟩,
    adjust_very_high_turnover_caps_interval exState hiData 0 (by decide)
      (by norm_num [avgTurnover, hiData]) (by decide) (by decide),
    by norm_num [adjust_frequency, computeTarget, avgTurnover, avgLifetime, exState,
      hiData, initState, log_adjustment]⟩

/-- Claim C2 (counterexample): at the spec's worked example (3% turnover,
200-minute lifetime, interval 60, bounds [10, 240]) the resulting interval is
120, not the 80 the spec's example states: the formula
`min(240, max(120, 60+20))` evaluates to 120 because `max(120, 80) = 120`. -/
theorem adjust_low_turnover_worked_example_not_80 :
    (adjust_frequency exState lowData 0).1.current_frequency = 120 ∧
    (adjust_frequency exState lowData 0).1.current_frequency ≠ 80 := by
  norm_num [adjust_frequency, computeTarget, avgTurnover, avgLifetime, exState,
    lowData, initState, log_adjustment]

/-- Claim C2 (amended): for every eligible call whose stats average turnover is
below 5% and average lifetime above 180 minutes, the "very low turnover and
long lifetime" rule fires and the resulting interval equals
`max(min_bound, min(max_bound, max(120, old + 20)))` — at the worked example
`min(240, max(120, 60+20)) = 120`, not 80. -/
theorem adjust_very_low_turnover_long_lifetime_result (s : ScraperState)
    (d : TurnoverData) (now : ℕ) (hth : s.adjustment_threshold ≤ s.scrape_count)
    (h5 : avgTurnover d < 5) (h180 : avgLifetime d > 180) :
    (adjust_frequency s d now).2 = some ("very low turnover and long deal lifetime", "high") ∧
    (adjust_frequency s d now).1.current_frequency
      = max s.min_frequency (min s.max_frequency (max 120 (s.current_frequency + 20))) := by
  rw [adjust_frequency_eligible s d now hth]
  simp only [computeTarget_very_low_long s h5 h180, apply_ite ScraperState.current_frequency,
    current_frequency_log, ite_self]
  exact ⟨trivial, by omega⟩

/-- Witness for the amended C2 at the worked example, where the result is 120. -/
theorem adjust_very_low_turnover_long_lifetime_result_witness :
    (exState.adjustment_threshold ≤ exState.scrape_count ∧ avgTurnover lowData < 5 ∧
      avgLifetime lowData > 180) ∧
    ((adjust_frequency exState lowData 0).2
        = some ("very low turnover and long deal lifetime", "high") ∧
      (adjust_frequency exState lowData 0).1.current_frequency
        = max exState.min_frequency
            (min exState.max_frequency (max 120 (exState.current_frequency + 20)))) ∧
    max exState.min_frequency
        (min exState.max_frequency (max 120 (exState.current_frequency + 20))) = 120 :=
  ⟨⟨by decide, by norm_num [avgTurnover, lowData], by norm_num [avgLifetime, lowData]⟩,
    adjust_very_low_turnover_long_lifetime_result exState lowData 0 (by decide)
      (by norm_num [avgTurnover, lowData]) (by norm_num [avgLifetime, lowData]),
    by decide⟩

/-- Claim C3 (counterexample): over 3 snapshots, item `a` is observed only at
snapshot 1 (so its last observation is earlier than the final sequence number)
and item `b` at snapshots 1 and 2.  The code reports `disappeared_deals = 1`,
while the number of items whose last observation precedes the final snapshot —
single-observation items included, as the claim states — is 2. -/
theorem single_observation_item_not_counted_disappeared :
    (calculate_turnover_stats singleObsTimeline 3 10).disappeared_deals = some 1 ∧
    singleObsTimeline.countP (fun p => decide (lastObs p.2 < 3)) = 2 := by
  decide

/-- Claim C3 (amended): `disappeared_deals` counts exactly the items with at
least two observations whose last observed sequence number is strictly below
the session's final sequence number; items observed only once are excluded
from the disappeared count, though every item remains counted in
`total_deals_seen`. -/
theorem disappeared_count_excludes_single_observation
    (timeline : List (String × List ℕ)) (n : ℕ) (i : ℚ) (h : timeline ≠ []) :
    (calculate_turnover_stats timeline n i).total_deals_seen = timeline.length ∧
    (calculate_turnover_stats timeline n i).disappeared_deals
      = some (timeline.countP (fun p => decide (2 ≤ p.2.length ∧ lastObs p.2 < n))) := by
  simp only [calculate_turnover_stats]
  rw [if_neg (by simpa using h)]
  exact ⟨rfl, by rw [filter_snd_filterMap_count]⟩

/-- Witness for the amended C3 on the timeline of the counterexample. -/
theorem disappeared_count_excludes_single_observation_witness :
    singleObsTimeline ≠ [] ∧
    ((calculate_turnover_stats singleObsTimeline 3 10).total_deals_seen
        = singleObsTimeline.length ∧
      (calculate_turnover_stats singleObsTimeline 3 10).disappeared_deals
        = some (singleObsTimeline.countP
            (fun p => decide (2 ≤ p.2.length ∧ lastObs p.2 < 3)))) :=
  ⟨by decide, disappeared_count_excludes_single_observation singleObsTimeline 3 10 (by decide)⟩

/-- Claim C4: for every deal timeline and snapshot count, the turnover rate —
read as its consumers read it, with default 0 when the key is absent — lies in
[0, 1], and is 0 when no items were seen. -/
theorem turnover_rate_mem_unit_interval (timeline : List (String × List ℕ))
    (n : ℕ) (i : ℚ) :
    0 ≤ (calculate_turnover_stats timeline n i).turnover_rate.getD 0 ∧
    (calculate_turnover_stats timeline n i).turnover_rate.getD 0 ≤ 1 ∧
    ((calculate_turnover_stats timeline n i).total_deals_seen = 0 →
      (calculate_turnover_stats timeline n i).turnover_rate.getD 0 = 0) := by
  by_cases h : timeline = []
  · subst h
    exact ⟨le_refl 0, by norm_num [calculate_turnover_stats, emptySourceStats], fun _ => rfl⟩
  · obtain ⟨dd, hle, hrate⟩ := calc_stats_rate timeline n i h
    have hlen : 0 < (timeline.length : ℚ) := by
      exact_mod_cast List.length_pos.2 h
    rw [hrate, Option.getD_some]
    refine ⟨div_nonneg (by positivity) hlen.le,
      (div_le_one hlen).2 (by exact_mod_cast hle), fun h0 => ?_⟩
    rw [calc_stats_total timeline n i h] at h0
    exact absurd h0 (by simpa using h)

/-- Witness for C4 at an empty timeline and at a two-observation timeline. -/
theorem turnover_rate_mem_unit_interval_witness :
    (0 ≤ (calculate_turnover_stats [] 3 10).turnover_rate.getD 0 ∧
      (calculate_turnover_stats [] 3 10).turnover_rate.getD 0 ≤ 1 ∧
      ((calculate_turnover_stats [] 3 10).total_deals_seen = 0 →
        (calculate_turnover_stats [] 3 10).turnover_rate.getD 0 = 0)) :=
  turnover_rate_mem_unit_interval [] 3 10

/-- Claim C5: a call to `adjust_frequency` with the poll count strictly below
the adjustment threshold is a complete no-op on the state, regardless of the
metrics supplied, and returns the distinguishable skipped result. -/
theorem adjust_below_threshold_noop (s : ScraperState) (d : TurnoverData) (now : ℕ)
    (h : s.scrape_count < s.adjustment_threshold) :
    adjust_frequency s d now = (s, none) := by
  unfold adjust_frequency
  rw [if_pos h]

/-- Witness for C5: a fresh state with 0 of 5 required polls, fed extreme
metrics, is returned unchanged. -/
theorem adjust_below_threshold_noop_witness :
    (initState 60).scrape_count < (initState 60).adjustment_threshold ∧
    adjust_frequency (initState 60) hiData 7 = (initState 60, none) :=
  ⟨by decide, adjust_below_threshold_noop (initState 60) hiData 7 (by decide)⟩

/-- Claim C6 (counterexample): `set_frequency_bounds(1000, 1)` yields
`min_frequency = 1000` (above the absolute ceiling 360) and
`max_frequency = 1` (below the absolute floor 5): caller values are not
clamped into the absolute range [5, 360]. -/
theorem bounds_not_clamped_into_absolute_range :
    (set_frequency_bounds (initState 60) 1000 1).min_frequency = 1000 ∧
    ¬((set_frequency_bounds (initState 60) 1000 1).min_frequency ≤ 360) ∧
    (set_frequency_bounds (initState 60) 1000 1).max_frequency = 1 ∧
    ¬(5 ≤ (set_frequency_bounds (initState 60) 1000 1).max_frequency) := by
  decide

/-- Claim C6 (amended): `set_frequency_bounds` clamps each bound on one side
only: the resulting minimum is at least 5 and the resulting maximum is at most
360; the minimum is not capped at 360 and the maximum is not raised to 5. -/
theorem bounds_one_sided_clamp (s : ScraperState) (a b : ℤ) :
    5 ≤ (set_frequency_bounds s a b).min_frequency ∧
    (set_frequency_bounds s a b).max_frequency ≤ 360 :=
  ⟨le_max_left 5 a, min_le_left 360 b⟩

/-- Claim C7: on every eligible call to `adjust_frequency`, an
`AdjustmentRecord` is appended exactly when the clamped new interval differs
from the old one; when they are equal the history and all counters are
untouched, yet `last_adjustment_time` is still set to the call time. -/
theorem adjust_appends_record_iff_changed (s : ScraperState) (d : TurnoverData)
    (now : ℕ) (hth : s.adjustment_threshold ≤ s.scrape_count) :
    ((adjust_frequency s d now).1.adjustments.length = s.adjustments.length + 1
      ↔ (adjust_frequency s d now).1.current_frequency ≠ s.current_frequency) ∧
    ((adjust_frequency s d now).1.current_frequency = s.current_frequency →
      (adjust_frequency s d now).1.adjustments = s.adjustments ∧
      (adjust_frequency s d now).1.increases = s.increases ∧
      (adjust_frequency s d now).1.decreases = s.decreases ∧
      (adjust_frequency s d now).1.total_adjustments = s.total_adjustments) ∧
    (adjust_frequency s d now).1.last_adjustment_time = some now := by
  rw [adjust_frequency_eligible s d now hth]
  by_cases hc : s.current_frequency
      = max s.min_frequency (min s.max_frequency
          (computeTarget s (avgTurnover d) (avgLifetime d)).1)
  · simp only [hc, ne_eq, not_true_eq_false, if_false, ite_false]
    simp [← hc]
  · simp only [ne_eq, hc, not_false_eq_true, if_true, ite_true]
    simp [log_adjustment, hc, Ne.symm hc]

/-- Witness for C7 on an eligible state with high-turnover data (an actual
change: 60 to 15). -/
theorem adjust_appends_record_iff_changed_witness :
    (exState.adjustment_threshold ≤ exState.scrape_count) ∧
    (((adjust_frequency exState hiData 3).1.adjustments.length
          = exState.adjustments.length + 1
        ↔ (adjust_frequency exState hiData 3).1.current_frequency
          ≠ exState.current_frequency) ∧
      ((adjust_frequency exState hiData 3).1.current_frequency = exState.current_frequency →
        (adjust_frequency exState hiData 3).1.adjustments = exState.adjustments ∧
        (adjust_frequency exState hiData 3).1.increases = exState.increases ∧
        (adjust_frequency exState hiData 3).1.decreases = exState.decreases ∧
        (adjust_frequency exState hiData 3).1.total_adjustments
          = exState.total_adjustments) ∧
      (adjust_frequency exState hiData 3).1.last_adjustment_time = some 3) :=
  ⟨by decide, adjust_appends_record_iff_changed exState hiData 3 (by decide)⟩

/-- Claim C8 (counterexample): an eligible call with empty per-source stats
raises the interval from 60 to 70 — an adjustment whose new interval is
greater than the old — yet the `increases` counter stays 0 and the
`decreases` counter becomes 1, the opposite of the claim's direction. -/
theorem interval_increase_increments_decreases_counter :
    (adjust_frequency exState emptyData 0).1.current_frequency = 70 ∧
    exState.current_frequency = 60 ∧
    (adjust_frequency exState emptyData 0).1.increases = 0 ∧
    (adjust_frequency exState emptyData 0).1.decreases = 1 := by
  norm_num [adjust_frequency, computeTarget, avgTurnover, avgLifetime, exState,
    emptyData, emptySourceStats, initState, log_adjustment]

/-- Claim C8 (amended): the counters track the direction of the scraping
frequency, which is opposite to the interval direction: a recorded adjustment
whose new interval is smaller than the old one (more frequent scraping)
increments `increases`, and otherwise `decreases` is incremented; every
recorded adjustment also increments `total_adjustments`. -/
theorem counters_track_frequency_direction (s : ScraperState) (old_freq new_freq : ℤ)
    (r c : String) (d : TurnoverData) (now : ℕ) :
    ((log_adjustment s old_freq new_freq r c d now).increases
        = if new_freq < old_freq then s.increases + 1 else s.increases) ∧
    ((log_adjustment s old_freq new_freq r c d now).decreases
        = if new_freq < old_freq then s.decreases else s.decreases + 1) ∧
    (log_adjustment s old_freq new_freq r c d now).total_adjustments
        = s.total_adjustments + 1 :=
  ⟨rfl, rfl, rfl⟩

/-- Claim C9 (counterexample): an eligible call whose turnover data has empty
stats for both sources is not a no-op on the interval: it changes 60 to 70. -/
theorem empty_stats_not_noop :
    (adjust_frequency exState emptyData 0).1.current_frequency = 70 ∧
    (adjust_frequency exState emptyData 0).1.current_frequency
      ≠ exState.current_frequency := by
  norm_num [adjust_frequency, computeTarget, avgTurnover, avgLifetime, exState,
    emptyData, emptySourceStats, initState, log_adjustment]

/-- Claim C9 (amended): on an eligible call with empty per-source stats, the
defaulted metrics (turnover 0, lifetime 120) select the "low turnover" branch
with medium confidence, and the interval becomes
`max(min_bound, min(max_bound, old + 10))` — an increase by 10 when within
bounds, not a no-op. -/
theorem empty_stats_triggers_low_turnover_branch (s : ScraperState) (d : TurnoverData)
    (now : ℕ) (hth : s.adjustment_threshold ≤ s.scrape_count)
    (hg : d.gcx_stats = emptySourceStats) (hc : d.cardcash_stats = emptySourceStats) :
    (adjust_frequency s d now).1.current_frequency
      = max s.min_frequency (min s.max_frequency (s.current_frequency + 10)) ∧
    (adjust_frequency s d now).2 = some ("low turnover rate", "medium") := by
  have havg : avgTurnover d = 0 := by
    simp [avgTurnover, hg, hc, emptySourceStats]
  have havl : avgLifetime d = 120 := by
    simp [avgLifetime, hg, hc, emptySourceStats]
  have hct : computeTarget s (avgTurnover d) (avgLifetime d)
      = (min s.max_frequency (s.current_frequency + 10), "low turnover rate", "medium") :=
    computeTarget_low_turnover s (by rw [havg]; norm_num)
      (by rw [havg, havl]; rintro ⟨-, hb⟩; norm_num at hb)
  rw [adjust_frequency_eligible s d now hth]
  simp only [hct, apply_ite ScraperState.current_frequency, current_frequency_log, ite_self]
  exact ⟨by omega, trivial⟩

/-- Witness for the amended C9 at the concrete eligible state, where the
interval becomes 70. -/
theorem empty_stats_triggers_low_turnover_branch_witness :
    (exState.adjustment_threshold ≤ exState.scrape_count ∧
      emptyData.gcx_stats = emptySourceStats ∧
      emptyData.cardcash_stats = emptySourceStats) ∧
    ((adjust_frequency exState emptyData 5).1.current_frequency
        = max exState.min_frequency
            (min exState.max_frequency (exState.current_frequency + 10)) ∧
      (adjust_frequency exState emptyData 5).2 = some ("low turnover rate", "medium")) ∧
    max exState.min_frequency (min exState.max_frequency (exState.current_frequency + 10))
      = 70 :=
  ⟨⟨by decide, rfl, rfl⟩,
    empty_stats_triggers_low_turnover_branch exState emptyData 5 (by decide) rfl rfl,
    by decide⟩

/-- Claim C10: for every timeline whose per-item observation lists are strictly
increasing and a non-negative check interval, a nonzero average lifetime is at
least twice the check interval: every counted lifetime sample spans at least
two distinct snapshots. -/
theorem avg_lifetime_at_least_two_intervals (timeline : List (String × List ℕ))
    (n : ℕ) (i : ℚ) (hmono : ∀ p ∈ timeline, List.Chain' (· < ·) p.2) (hi : 0 ≤ i)
    (hnz : (calculate_turnover_stats timeline n i).avg_lifetime_minutes.getD 0 ≠ 0) :
    2 * i ≤ (calculate_turnover_stats timeline n i).avg_lifetime_minutes.getD 0 := by
  by_cases h : timeline = []
  · exact absurd (by subst h; rfl) hnz
  · have havg : (calculate_turnover_stats timeline n i).avg_lifetime_minutes
        = some (if ((timeline.filterMap (fun p => dealContribution n i p.2)).map Prod.fst).length ≠ 0
            then ((timeline.filterMap (fun p => dealContribution n i p.2)).map Prod.fst).sum
              / (((timeline.filterMap (fun p => dealContribution n i p.2)).map Prod.fst).length : ℚ)
            else 0) := by
      simp only [calculate_turnover_stats]
      rw [if_neg (by simpa using h)]
    set ls := (timeline.filterMap (fun p => dealContribution n i p.2)).map Prod.fst with hls
    rw [havg, Option.getD_some] at hnz ⊢
    by_cases hl : ls.length = 0
    · rw [if_neg (by simpa using hl)] at hnz
      exact absurd rfl hnz
    · rw [if_pos hl] at hnz ⊢
      apply avg_ge
      · intro hnil
        exact hl (by simp [hnil])
      · intro q hq
        rw [hls] at hq
        rcases List.mem_map.1 hq with ⟨⟨q', b⟩, hmem, hq'⟩
        rcases List.mem_filterMap.1 hmem with ⟨p, hp, hfp⟩
        have h2 : 2 ≤ p.2.length := by
          by_contra hlt
          rw [(dealContribution_eq_none_iff n i p.2).2 (by omega)] at hfp
          cases hfp
        rw [dealContribution_eq_some n i p.2 h2] at hfp
        have hqval : q = (((List.insertionSort (· ≤ ·) p.2).getLastD 0 : ℚ)
            - ((List.insertionSort (· ≤ ·) p.2).headD 0 : ℚ) + 1) * i := by
          have := Option.some.inj hfp
          rw [← hq']
          exact (congrArg Prod.fst this).symm
        have hchain := hmono p hp
        have hnd : p.2.Nodup :=
          (List.chain'_iff_pairwise.1 hchain).imp (fun hlt => ne_of_lt hlt)
        have hnds : (List.insertionSort (· ≤ ·) p.2).Nodup :=
          ((List.perm_insertionSort _ p.2).nodup_iff).2 hnd
        have hsorted := List.sorted_insertionSort (· ≤ ·) p.2
        have hlen2 : 2 ≤ (List.insertionSort (· ≤ ·) p.2).length := by
          rw [List.length_insertionSort]
          exact h2
        have hd := sorted_headD_lt_getLastD hsorted hnds hlen2
        have hcast : (2 : ℚ) ≤ ((List.insertionSort (· ≤ ·) p.2).getLastD 0 : ℚ)
            - ((List.insertionSort (· ≤ ·) p.2).headD 0 : ℚ) + 1 := by
          have h' : ((List.insertionSort (· ≤ ·) p.2).headD 0 : ℚ) + 1
              ≤ ((List.insertionSort (· ≤ ·) p.2).getLastD 0 : ℚ) := by
            exact_mod_cast hd
          linarith
        rw [hqval]
        exact mul_le_mul_of_nonneg_right hcast hi

/-- Witness for C10: one item observed at snapshots 1 and 2 with a 10-minute
interval gives average lifetime 20 = 2 * 10. -/
theorem avg_lifetime_at_least_two_intervals_witness :
    ((∀ p ∈ twoObsTimeline, List.Chain' (· < ·) p.2) ∧ (0 : ℚ) ≤ 10 ∧
      (calculate_turnover_stats twoObsTimeline 2 10).avg_lifetime_minutes.getD 0 ≠ 0) ∧
    2 * (10 : ℚ) ≤ (calculate_turnover_stats twoObsTimeline 2 10).avg_lifetime_minutes.getD 0 :=
  ⟨⟨by simp [twoObsTimeline], by norm_num,
      by norm_num [calculate_turnover_stats, dealContribution, twoObsTimeline,
        List.insertionSort, List.orderedInsert, List.filterMap_cons]⟩,
    avg_lifetime_at_least_two_intervals twoObsTimeline 2 10 (by simp [twoObsTimeline])
      (by norm_num)
      (by norm_num [calculate_turnover_stats, dealContribution, twoObsTimeline,
        List.insertionSort, List.orderedInsert, List.filterMap_cons])⟩
